import Mathlib

/-
Shallow embedding of the tmpfiles-rs line parser.

The input `&[u8]` is modelled as `List Char`, each `Char` standing for one
byte (< 256); nom byte combinators inspect bytes through `as char`, so this
is faithful on byte inputs.  A nom `IResult` is modelled by `PRes`:
`ok rest value` for success, `err` for a recoverable nom error, and `panic`
for a Rust panic (`unwrap()` on an `Err`, or `todo!`).  Rust u64 arithmetic
(multiplication by the unit weights, the component sum) wraps modulo 2^64 as
in release builds.
-/

namespace Tmpfiles

inductive PRes (α : Type) where
  | ok : List Char → α → PRes α
  | err : PRes α
  | panic : PRes α
  deriving DecidableEq

/-- Result of a fallible `TryFrom<char>` conversion: `ok`, an `Err` value,
or a Rust panic (`todo!`). -/
inductive ConvRes (τ : Type) where
  | ok : τ → ConvRes τ
  | err : ConvRes τ
  | panic : ConvRes τ
  deriving DecidableEq

/-- Rust `char::is_whitespace` restricted to byte-range characters
(U+0009..U+000D, U+0020, U+0085, U+00A0 are the White_Space code points
below 256). -/
def isRustWhitespace (c : Char) : Bool :=
  c = ' ' || c = '\t' || c = '\n' || c = '\x0b' || c = '\x0c' || c = '\r' ||
  c = '\x85' || c = '\xa0'

/-- nom `is_space`: space or horizontal tab. -/
def isSpaceByte (c : Char) : Bool :=
  c = ' ' || c = '\t'

/-- nom `is_oct_digit`. -/
def isOctDigit (c : Char) : Bool :=
  '0' ≤ c && c ≤ '7'

/-- nom `char(c)`. -/
def charP (c : Char) : List Char → PRes Char
  | [] => .err
  | x :: rest => if x = c then .ok rest c else .err

/-- nom `tag(t)`. -/
def tagP (t : List Char) (input : List Char) : PRes (List Char) :=
  if t.isPrefixOf input then .ok (input.drop t.length) t else .err

/-- nom `one_of(s)`. -/
def oneOfP (s : List Char) : List Char → PRes Char
  | [] => .err
  | c :: rest => if c ∈ s then .ok rest c else .err

/-- nom `digit1`. -/
def digit1 (input : List Char) : PRes (List Char) :=
  let ds := input.takeWhile Char.isDigit
  if ds.isEmpty then .err else .ok (input.drop ds.length) ds

/-- nom `space1`. -/
def space1 (input : List Char) : PRes (List Char) :=
  let sp := input.takeWhile isSpaceByte
  if sp.isEmpty then .err else .ok (input.drop sp.length) sp

/-- nom `take_till(pred)` (complete): longest prefix on which `pred` is
false; never fails. -/
def takeTill (pred : Char → Bool) (input : List Char) : PRes (List Char) :=
  let tk := input.takeWhile (fun c => !pred c)
  .ok (input.drop tk.length) tk

/-- nom `take_while_m_n(m, n, p)` (complete). -/
def takeWhileMN (m n : Nat) (p : Char → Bool) (input : List Char) :
    PRes (List Char) :=
  let tk := (input.takeWhile p).take n
  if tk.length < m then .err else .ok (input.drop tk.length) tk

/-- nom `alt((p, q))`: a recoverable error from `p` falls through to `q`; a
panic propagates. -/
def altP (p q : List Char → PRes α) (input : List Char) : PRes α :=
  match p input with
  | .err => q input
  | r => r

/-- nom `opt(p)`. -/
def optP (p : List Char → PRes α) (input : List Char) : PRes (Option α) :=
  match p input with
  | .ok rest v => .ok rest (some v)
  | .err => .ok input none
  | .panic => .panic

/-- nom `peek(p)`: runs `p` but consumes nothing on success. -/
def peekP (p : List Char → PRes α) (input : List Char) : PRes α :=
  match p input with
  | .ok _ v => .ok input v
  | .err => .err
  | .panic => .panic

/-- nom `terminated(p, q)`. -/
def terminatedP (p : List Char → PRes α) (q : List Char → PRes β)
    (input : List Char) : PRes α :=
  match p input with
  | .ok rest v =>
    match q rest with
    | .ok rest2 _ => .ok rest2 v
    | .err => .err
    | .panic => .panic
  | .err => .err
  | .panic => .panic

/-- nom `all_consuming(p)`. -/
def allConsuming (p : List Char → PRes α) (input : List Char) : PRes α :=
  match p input with
  | .ok [] v => .ok [] v
  | .ok (_ :: _) _ => .err
  | .err => .err
  | .panic => .panic

def U32_MAX : Nat := 4294967295
def U64_MAX : Nat := 18446744073709551615
def U64_MOD : Nat := 18446744073709551616

/-- Rust release-mode wrapping u64 multiplication. -/
def u64Mul (a b : Nat) : Nat := a * b % U64_MOD

/-- Decimal value of a digit run. -/
def natOfDigits (ds : List Char) : Nat :=
  ds.foldl (fun a c => a * 10 + (c.toNat - 48)) 0

/-- `btoi::<u32>` on a run of decimal digits: `none` on overflow. -/
def btoiU32 (ds : List Char) : Option Nat :=
  let v := natOfDigits ds
  if v ≤ U32_MAX then some v else none

/-- `btoi::<u64>` on a run of decimal digits: `none` on overflow. -/
def btoiU64 (ds : List Char) : Option Nat :=
  let v := natOfDigits ds
  if v ≤ U64_MAX then some v else none

/-- Octal value of a digit run. -/
def natOfOctDigits (ds : List Char) : Nat :=
  ds.foldl (fun a c => a * 8 + (c.toNat - 48)) 0

/-- `btoi_radix::<u32>(ds, 8)`: `none` on overflow. -/
def btoiRadix8 (ds : List Char) : Option Nat :=
  let v := natOfOctDigits ds
  if v ≤ U32_MAX then some v else none

/- Data model, from src/src/common/action.rs. -/

/-- `ItemTypes` of the modular parser (src/src/common/action.rs). -/
inductive ItemTypes where
  | CREATE_FILE
  | CREATE_DIRECTORY
  | TRUNCATE_DIRECTORY
  | CREATE_SUBVOLUME
  | CREATE_SUBVOLUME_INHERIT_QUOTA
  | CREATE_SUBVOLUME_NEW_QUOTA
  | CREATE_FIFO
  | CREATE_SYMLINK
  | CREATE_BLOCK_DEVICE
  | CREATE_CHAR_DEVICE
  | COPY_FILES
  | WRITE_FILE
  | EMPTY_DIRECTORY
  | SET_XATTR
  | RECURSIVE_SET_XATTR
  | SET_ACL
  | RECURSIVE_SET_ACL
  | SET_ATTRIBUTE
  | RECURSIVE_SET_ATTRIBUTE
  | IGNORE_PATH
  | IGNORE_DIRECTORY_PATH
  | REMOVE_PATH
  | RECURSIVE_REMOVE_PATH
  | RELABEL_PATH
  | RECURSIVE_RELABEL_PATH
  deriving DecidableEq

/-- `ItemTypes` of the monolithic parser (src/src/parser.rs); the variants
prefixed `U_` carry a leading underscore in the source. -/
inductive MonoItemTypes where
  | CREATE_DIRECTORY
  | U_CREATE_SUBVOLUME
  | U_CREATE_SUBVOLUME_INHERIT_QUOTA
  | U_CREATE_SUBVOLUME_NEW_QUOTA
  | U_EMPTY_DIRECTORY
  | U_TRUNCATE_DIRECTORY
  | U_CREATE_FIFO
  | U_IGNORE_PATH
  | U_IGNORE_DIRECTORY_PATH
  | U_REMOVE_PATH
  | U_RECURSIVE_REMOVE_PATH
  | U_ADJUST_MODE
  | RELABEL_PATH
  | U_RECURSIVE_RELABEL_PATH
  | CREATE_FILE
  | U_TRUNCATE_FILE
  deriving DecidableEq

/-- `impl TryFrom<char> for ItemTypes` in src/src/common/action.rs: every
unmatched character yields an `Err` value. -/
def ItemTypes.tryFrom : Char → ConvRes ItemTypes
  | 'f' => .ok .CREATE_FILE
  | 'd' => .ok .CREATE_DIRECTORY
  | 'D' => .ok .TRUNCATE_DIRECTORY
  | 'v' => .ok .CREATE_SUBVOLUME
  | 'q' => .ok .CREATE_SUBVOLUME_INHERIT_QUOTA
  | 'Q' => .ok .CREATE_SUBVOLUME_NEW_QUOTA
  | 'p' => .ok .CREATE_FIFO
  | 'L' => .ok .CREATE_SYMLINK
  | 'b' => .ok .CREATE_BLOCK_DEVICE
  | 'c' => .ok .CREATE_CHAR_DEVICE
  | 'C' => .ok .COPY_FILES
  | 'w' => .ok .WRITE_FILE
  | 'e' => .ok .EMPTY_DIRECTORY
  | 't' => .ok .SET_XATTR
  | 'T' => .ok .RECURSIVE_SET_XATTR
  | 'a' => .ok .SET_ACL
  | 'A' => .ok .RECURSIVE_SET_ACL
  | 'h' => .ok .SET_ATTRIBUTE
  | 'H' => .ok .RECURSIVE_SET_ATTRIBUTE
  | 'x' => .ok .IGNORE_PATH
  | 'X' => .ok .IGNORE_DIRECTORY_PATH
  | 'r' => .ok .REMOVE_PATH
  | 'R' => .ok .RECURSIVE_REMOVE_PATH
  | 'z' => .ok .RELABEL_PATH
  | 'Z' => .ok .RECURSIVE_RELABEL_PATH
  | _ => .err

/-- `impl TryFrom<char> for ItemTypes` in src/src/parser.rs: only `d`, `f`,
`z` are mapped; every other character hits `todo!`, a panic. -/
def MonoItemTypes.tryFrom : Char → ConvRes MonoItemTypes
  | 'd' => .ok .CREATE_DIRECTORY
  | 'f' => .ok .CREATE_FILE
  | 'z' => .ok .RELABEL_PATH
  | _ => .panic

/-- `Mode`: `Permissions::from_mode` just stores the u32 permission bits. -/
structure Mode where
  masked : Bool
  mode : Nat
  deriving DecidableEq

/-- `User`: `Name` holds the raw `OsStr` bytes, `ID` the parsed u32. -/
inductive User where
  | Name : List Char → User
  | ID : Nat → User
  deriving DecidableEq

inductive Group where
  | Name : List Char → Group
  | ID : Nat → Group
  deriving DecidableEq

structure CleanupAge where
  age : Nat
  keep_first_level : Bool
  deriving DecidableEq

/-- `Action`, parameterized by the `ItemTypes` enum of the parser that built
it (the two parsers declare structurally identical `Action` types over their
own enums). -/
structure Action (τ : Type) where
  action_type : τ
  path : List Char
  mode : Option Mode
  user : Option User
  group : Option Group
  age : Option CleanupAge
  argument : Option (List Char)
  boot_only : Bool
  append_or_force : Bool
  allow_failure : Bool
  deriving DecidableEq

/- Field parsers, shared verbatim by src/src/parser/mod.rs (with
src/src/parser/basic.rs and src/src/parser/age.rs) and src/src/parser.rs. -/

def VALID_ITEM_TYPES : List Char := "fFdDvqQpLcbCwetTaAhHxXrRzZm".data

/-- `item_type_char`: `map_res(one_of(VALID_ITEM_TYPES), ItemTypes::try_from)`,
parameterized by the `try_from` of the parser at hand. -/
def item_type_charP (tf : Char → ConvRes τ) (input : List Char) : PRes τ :=
  match oneOfP VALID_ITEM_TYPES input with
  | .ok rest c =>
    match tf c with
    | .ok t => .ok rest t
    | .err => .err
    | .panic => .panic
  | .err => .err
  | .panic => .panic

/-- The modifier suffixes and trailing separator of `item_type`:
`opt(char('!'))`, `opt(char('+'))`, `opt(char('-'))`, then `space1`. -/
def modifiersAndSpace (input : List Char) : PRes (Bool × Bool × Bool) :=
  match optP (charP '!') input with
  | .ok input boot_only =>
    match optP (charP '+') input with
    | .ok input append_or_force =>
      match optP (charP '-') input with
      | .ok input allow_failure =>
        match space1 input with
        | .ok input _ =>
          .ok input (boot_only.isSome, append_or_force.isSome,
            allow_failure.isSome)
        | .err => .err
        | .panic => .panic
      | .err => .err
      | .panic => .panic
    | .err => .err
    | .panic => .panic
  | .err => .err
  | .panic => .panic

/-- `item_type`. -/
def item_typeP (tf : Char → ConvRes τ) (input : List Char) :
    PRes (τ × Bool × Bool × Bool) :=
  match item_type_charP tf input with
  | .ok input t =>
    match modifiersAndSpace input with
    | .ok input (b1, b2, b3) => .ok input (t, b1, b2, b3)
    | .err => .err
    | .panic => .panic
  | .err => .err
  | .panic => .panic

/-- `empty_placeholder` (src/src/parser/basic.rs). -/
def empty_placeholderP (input : List Char) : PRes Char :=
  charP '-' input

/-- `path`: `take_till(is_whitespace)`. -/
def pathP (input : List Char) : PRes (List Char) :=
  takeTill isRustWhitespace input

/-- `non_empty_mode`. -/
def non_empty_modeP (input : List Char) : PRes Mode :=
  match optP (charP '~') input with
  | .ok input masked =>
    let input := match tagP ['0'] input with
      | .ok rest _ => rest
      | _ => input
    match altP (takeWhileMN 4 4 isOctDigit) (takeWhileMN 3 3 isOctDigit)
        input with
    | .ok input mode_digits =>
      match btoiRadix8 mode_digits with
      | some octal_permission => .ok input ⟨masked.isSome, octal_permission⟩
      | none => .panic
    | .err => .err
    | .panic => .panic
  | .err => .err
  | .panic => .panic

/-- `mode`. -/
def modeP (input : List Char) : PRes (Option Mode) :=
  match empty_placeholderP input with
  | .ok rest _ => .ok rest none
  | .panic => .panic
  | .err =>
    match non_empty_modeP input with
    | .ok rest m => .ok rest (some m)
    | .err => .err
    | .panic => .panic

/-- `user_or_group_id`: `map(digit1, |uid| btoi(uid).unwrap())`; the
`unwrap` panics on u32 overflow. -/
def user_or_group_idP (input : List Char) : PRes Nat :=
  match digit1 input with
  | .ok rest ds =>
    match btoiU32 ds with
    | some v => .ok rest v
    | none => .panic
  | .err => .err
  | .panic => .panic

/-- `user_or_group_name`: `take_till(is_whitespace)`. -/
def user_or_group_nameP (input : List Char) : PRes (List Char) :=
  takeTill isRustWhitespace input

/-- `user`. -/
def userP (input : List Char) : PRes (Option User) :=
  match empty_placeholderP input with
  | .ok rest _ => .ok rest none
  | .panic => .panic
  | .err =>
    match user_or_group_idP input with
    | .ok rest v => .ok rest (some (.ID v))
    | .panic => .panic
    | .err =>
      match user_or_group_nameP input with
      | .ok rest nm => .ok rest (some (.Name nm))
      | .err => .err
      | .panic => .panic

/-- `group`. -/
def groupP (input : List Char) : PRes (Option Group) :=
  match empty_placeholderP input with
  | .ok rest _ => .ok rest none
  | .panic => .panic
  | .err =>
    match user_or_group_idP input with
    | .ok rest v => .ok rest (some (.ID v))
    | .panic => .panic
    | .err =>
      match user_or_group_nameP input with
      | .ok rest nm => .ok rest (some (.Name nm))
      | .err => .err
      | .panic => .panic

/-- `argument`: `alt((map(all_consuming(alt((tag("-"), tag("")))), |_| None),
map(rest, Some)))`. -/
def argumentP (input : List Char) : PRes (Option (List Char)) :=
  match allConsuming (altP (tagP ['-']) (tagP [])) input with
  | .ok rest _ => .ok rest none
  | .panic => .panic
  | .err => .ok [] (some input)

/- Age sub-parser, src/src/parser/age.rs (identical code in
src/src/parser.rs). -/

def USEC_PER_MSEC : Nat := 1000
def USEC_PER_SEC : Nat := 1000 * USEC_PER_MSEC
def USEC_PER_MIN : Nat := 60 * USEC_PER_SEC
def USEC_PER_HOUR : Nat := 60 * USEC_PER_MIN
def USEC_PER_DAY : Nat := 24 * USEC_PER_HOUR
def USEC_PER_WEEK : Nat := 7 * USEC_PER_DAY

/-- The common shape of the seven unit parsers of src/src/parser/age.rs:
`opt(terminated(digit1, tags))`, with an absent component contributing 0
and a present one contributing `btoi::<u64>(digits).unwrap() * weight`
(the `unwrap` panics on overflow; the multiplication wraps).
`micro_seconds` has no multiplication, which coincides with weight 1:
`u64Mul v 1 = v` for every u64 value `v`. -/
def time_unitP (tags : List Char → PRes (List Char)) (weight : Nat)
    (input : List Char) : PRes Nat :=
  match optP (terminatedP digit1 tags) input with
  | .ok i (some ds) =>
    match btoiU64 ds with
    | some v => .ok i (u64Mul v weight)
    | none => .panic
  | .ok i none => .ok i 0
  | .err => .err
  | .panic => .panic

/-- `weeks`: `opt(terminated(digit1, alt((tag("w"), tag("weeks")))))`. -/
def weeksP : List Char → PRes Nat :=
  time_unitP (altP (tagP "w".data) (tagP "weeks".data)) USEC_PER_WEEK

/-- `days`. -/
def daysP : List Char → PRes Nat :=
  time_unitP (altP (tagP "d".data) (tagP "days".data)) USEC_PER_DAY

/-- `hours`. -/
def hoursP : List Char → PRes Nat :=
  time_unitP (altP (tagP "h".data) (tagP "hours".data)) USEC_PER_HOUR

/-- `minutes`: `alt((tag("m"), tag("min"), tag("minutes")))`. -/
def minutesP : List Char → PRes Nat :=
  time_unitP
    (altP (tagP "m".data) (altP (tagP "min".data) (tagP "minutes".data)))
    USEC_PER_MIN

/-- `seconds`. -/
def secondsP : List Char → PRes Nat :=
  time_unitP (altP (tagP "s".data) (tagP "seconds".data)) USEC_PER_SEC

/-- `milli_seconds`: `alt((tag("ms"), tag("milliseconds")))`. -/
def milli_secondsP : List Char → PRes Nat :=
  time_unitP (altP (tagP "ms".data) (tagP "milliseconds".data))
    USEC_PER_MSEC

/-- `micro_seconds`: `alt((tag("ms"), tag("microseconds")))` — note the
`ms` tag, exactly as in the source. -/
def micro_secondsP : List Char → PRes Nat :=
  time_unitP (altP (tagP "ms".data) (tagP "microseconds".data)) 1

/-- `age_with_unit`: the seven unit parsers in sequence, their values
summed (u64 wrapping sum). -/
def age_with_unitP (input : List Char) : PRes Nat :=
  match weeksP input with
  | .ok input weeks =>
    match daysP input with
    | .ok input days =>
      match hoursP input with
      | .ok input hours =>
        match minutesP input with
        | .ok input minutes =>
          match secondsP input with
          | .ok input seconds =>
            match milli_secondsP input with
            | .ok input milli_seconds =>
              match micro_secondsP input with
              | .ok input micro_seconds =>
                .ok input ((weeks + days + hours + minutes + seconds +
                  milli_seconds + micro_seconds) % U64_MOD)
              | .err => .err
              | .panic => .panic
            | .err => .err
            | .panic => .panic
          | .err => .err
          | .panic => .panic
        | .err => .err
        | .panic => .panic
      | .err => .err
      | .panic => .panic
    | .err => .err
    | .panic => .panic
  | .err => .err
  | .panic => .panic

/-- `age_without_unit`: `digit1` then `peek(space1)` then
`btoi::<u64>(digits).unwrap() * USEC_PER_SEC`. -/
def age_without_unitP (input : List Char) : PRes Nat :=
  match digit1 input with
  | .ok input digits =>
    match peekP space1 input with
    | .ok input _ =>
      match btoiU64 digits with
      | some v => .ok input (u64Mul v USEC_PER_SEC)
      | none => .panic
    | .err => .err
    | .panic => .panic
  | .err => .err
  | .panic => .panic

/-- `age`. -/
def ageP (input : List Char) : PRes (Option CleanupAge) :=
  match optP (charP '~') input with
  | .ok input keep_first_level =>
    match optP empty_placeholderP input with
    | .ok input (some _) => .ok input none
    | .ok input none =>
      match altP age_without_unitP age_with_unitP input with
      | .ok input a => .ok input (some ⟨a, keep_first_level.isSome⟩)
      | .err => .err
      | .panic => .panic
    | .err => .err
    | .panic => .panic
  | .err => .err
  | .panic => .panic

/- Line assembler. -/

/-- The six fields after the item type, in the fixed order of `parse_line`
(path, mode, user, group, age, argument, one `space1` between consecutive
fields); both parse_line functions inline exactly this sequence. -/
structure LineFields where
  path : List Char
  mode : Option Mode
  user : Option User
  group : Option Group
  age : Option CleanupAge
  argument : Option (List Char)
  deriving DecidableEq

/-- The field sequence of `parse_line` after `item_type`. -/
def lineFieldsP (input : List Char) : PRes LineFields :=
  match pathP input with
  | .ok input path_os_str =>
    match space1 input with
    | .ok input _ =>
      match modeP input with
      | .ok input mode =>
        match space1 input with
        | .ok input _ =>
          match userP input with
          | .ok input user =>
            match space1 input with
            | .ok input _ =>
              match groupP input with
              | .ok input group =>
                match space1 input with
                | .ok input _ =>
                  match ageP input with
                  | .ok input age =>
                    match space1 input with
                    | .ok input _ =>
                      match argumentP input with
                      | .ok input argument =>
                        .ok input
                          ⟨path_os_str, mode, user, group, age, argument⟩
                      | .err => .err
                      | .panic => .panic
                    | .err => .err
                    | .panic => .panic
                  | .err => .err
                  | .panic => .panic
                | .err => .err
                | .panic => .panic
              | .err => .err
              | .panic => .panic
            | .err => .err
            | .panic => .panic
          | .err => .err
          | .panic => .panic
        | .err => .err
        | .panic => .panic
      | .err => .err
      | .panic => .panic
    | .err => .err
    | .panic => .panic
  | .err => .err
  | .panic => .panic

/-- `parse_line`, parameterized by the `try_from` used for the item type;
everything past the item type is the shared `lineFieldsP` sequence. -/
def parse_lineP (tf : Char → ConvRes τ) (input : List Char) :
    PRes (Action τ) :=
  match item_typeP tf input with
  | .ok input (action_type, boot_only, append_or_force, allow_failure) =>
    match lineFieldsP input with
    | .ok input f =>
      .ok input
        { action_type
          path := f.path
          mode := f.mode
          user := f.user
          group := f.group
          age := f.age
          argument := f.argument
          boot_only
          append_or_force
          allow_failure }
    | .err => .err
    | .panic => .panic
  | .err => .err
  | .panic => .panic

/-- `parse_line` of the modular parser, src/src/parser/mod.rs. -/
def parse_line (input : List Char) : PRes (Action ItemTypes) :=
  parse_lineP ItemTypes.tryFrom input

/-- `parse_line` of the monolithic parser, src/src/parser.rs. -/
def mono_parse_line (input : List Char) : PRes (Action MonoItemTypes) :=
  parse_lineP MonoItemTypes.tryFrom input

/- Correspondence between the two parsers' results, for the refinement
claim: the monolithic enum's `d`/`f`/`z` variants match the modular ones. -/

/-- The obvious mapping between the variants reachable in both parsers. -/
def typeMatches : MonoItemTypes → ItemTypes → Prop
  | .CREATE_FILE, .CREATE_FILE => True
  | .CREATE_DIRECTORY, .CREATE_DIRECTORY => True
  | .RELABEL_PATH, .RELABEL_PATH => True
  | _, _ => False

/-- Field-by-field agreement of the two parsers' `Action` records. -/
def actionAgrees (a : Action MonoItemTypes) (b : Action ItemTypes) : Prop :=
  typeMatches a.action_type b.action_type ∧ a.path = b.path ∧
  a.mode = b.mode ∧ a.user = b.user ∧ a.group = b.group ∧ a.age = b.age ∧
  a.argument = b.argument ∧ a.boot_only = b.boot_only ∧
  a.append_or_force = b.append_or_force ∧
  a.allow_failure = b.allow_failure

/-- Agreement of two parse results: same outcome kind, and on success the
same unconsumed input and agreeing `Action`s. -/
def resAgree :
    PRes (Action MonoItemTypes) → PRes (Action ItemTypes) → Prop
  | .ok i1 a1, .ok i2 a2 => i1 = i2 ∧ actionAgrees a1 a2
  | .err, .err => True
  | .panic, .panic => True
  | _, _ => False

/- Generic lemmas about the token primitives, used by the claims that
quantify over whole token classes. -/

/-- `headNotP p xs` holds when `xs` does not start with a `p`-character, so
a `takeWhile p` scan stops exactly at the front of `xs`. -/
def headNotP (p : Char → Bool) : List Char → Bool
  | [] => true
  | c :: _ => !p c

theorem takeWhile_append_eq (p : Char → Bool) (xs ys : List Char)
    (h1 : xs.all p = true) (h2 : headNotP p ys = true) :
    (xs ++ ys).takeWhile p = xs := by
  induction xs with
  | nil =>
    cases ys with
    | nil => rfl
    | cons c t =>
      simp only [headNotP, Bool.not_eq_true'] at h2
      simp [List.takeWhile_cons, h2]
  | cons x xs ih =>
    simp only [List.all_cons, Bool.and_eq_true] at h1
    simp [List.takeWhile_cons, h1.1, ih h1.2]

theorem digit1_append (ds rest : List Char) (h0 : ds ≠ [])
    (h1 : ds.all Char.isDigit = true)
    (h2 : headNotP Char.isDigit rest = true) :
    digit1 (ds ++ rest) = .ok rest ds := by
  simp only [digit1, takeWhile_append_eq Char.isDigit ds rest h1 h2]
  rw [List.isEmpty_eq_false_iff_exists_mem.mpr]
  · simp [List.drop_left]
  · cases ds with
    | nil => exact absurd rfl h0
    | cons d t => exact ⟨d, List.mem_cons_self d t⟩

theorem digit1_none (input : List Char)
    (h : headNotP Char.isDigit input = true) : digit1 input = .err := by
  cases input with
  | nil => rfl
  | cons c t =>
    simp only [headNotP, Bool.not_eq_true'] at h
    simp [digit1, List.takeWhile_cons, h]

/-- A unit parser contributes 0 and consumes nothing when the input does
not start with a digit run. -/
theorem time_unitP_no_digit (tags : List Char → PRes (List Char))
    (w : Nat) (input : List Char)
    (h : headNotP Char.isDigit input = true) :
    time_unitP tags w input = .ok input 0 := by
  simp [time_unitP, optP, terminatedP, digit1_none input h]

/-- A unit parser contributes 0 and consumes nothing when its unit tags
reject what follows the digit run. -/
theorem time_unitP_tag_fail (tags : List Char → PRes (List Char))
    (w : Nat) (ds rest : List Char) (h0 : ds ≠ [])
    (h1 : ds.all Char.isDigit = true)
    (h2 : headNotP Char.isDigit rest = true)
    (ht : tags rest = .err) :
    time_unitP tags w (ds ++ rest) = .ok (ds ++ rest) 0 := by
  simp [time_unitP, optP, terminatedP, digit1_append ds rest h0 h1 h2, ht]

/-- A unit parser consumes digit run plus matching tag and contributes the
weighted wrapped value. -/
theorem time_unitP_match (tags : List Char → PRes (List Char))
    (w : Nat) (ds rest rest2 t : List Char) (h0 : ds ≠ [])
    (h1 : ds.all Char.isDigit = true)
    (h2 : headNotP Char.isDigit rest = true)
    (ht : tags rest = .ok rest2 t)
    (hv : natOfDigits ds ≤ U64_MAX) :
    time_unitP tags w (ds ++ rest) =
      .ok rest2 (u64Mul (natOfDigits ds) w) := by
  simp [time_unitP, optP, terminatedP, digit1_append ds rest h0 h1 h2, ht,
    btoiU64, hv]

theorem takeTill_append (nm rest : List Char)
    (h1 : nm.all (fun c => !isRustWhitespace c) = true)
    (h2 : headNotP (fun c => !isRustWhitespace c) rest = true) :
    takeTill isRustWhitespace (nm ++ rest) = .ok rest nm := by
  simp only [takeTill,
    takeWhile_append_eq (fun c => !isRustWhitespace c) nm rest h1 h2]
  simp [List.drop_left]

/-- When the item-type characters of the two parsers convert to matching
variants, the full line parses agree: everything after the type character
is the shared field sequence. -/
theorem parsersAgreeAux (t1 : MonoItemTypes) (t2 : ItemTypes)
    (ht : typeMatches t1 t2) (c : Char) (rest : List Char)
    (h1 : MonoItemTypes.tryFrom c = .ok t1)
    (h2 : ItemTypes.tryFrom c = .ok t2)
    (hmem : c ∈ VALID_ITEM_TYPES) :
    resAgree (mono_parse_line (c :: rest)) (parse_line (c :: rest)) := by
  simp only [mono_parse_line, parse_line, parse_lineP, item_typeP,
    item_type_charP, oneOfP, hmem, if_true, h1, h2]
  cases hms : modifiersAndSpace rest with
  | err => simp [resAgree]
  | panic => simp [resAgree]
  | ok i v =>
    obtain ⟨b1, b2, b3⟩ := v
    cases hf : lineFieldsP i with
    | err => simp [hf, resAgree]
    | panic => simp [hf, resAgree]
    | ok j f =>
      simp [hf, resAgree, actionAgrees]
      exact ht

/- The claims. -/

/-- Claim C1: parsing the full line `d  /tmp/z/f  0755 daemon daemon 1d3h -`
succeeds and yields exactly the Action with type CREATE_DIRECTORY, path
`/tmp/z/f`, mode `Some(masked=false, 0o755)`, user and group
`Some(Name("daemon"))`, age `Some(97_200_000_000µs, keep_first_level=false)`,
argument `None`, and all three modifier flags false. -/
theorem c1_parse_line_end_to_end :
    parse_line "d  /tmp/z/f  0755 daemon daemon 1d3h -".data =
      .ok [] { action_type := .CREATE_DIRECTORY,
               path := "/tmp/z/f".data,
               mode := some ⟨false, 0o755⟩,
               user := some (.Name "daemon".data),
               group := some (.Name "daemon".data),
               age := some ⟨97200000000, false⟩,
               argument := none,
               boot_only := false,
               append_or_force := false,
               allow_failure := false } := by
  decide

/-- Claim C2: for every character outside the alphabet
`fFdDvqQpLcbCwetTaAhHxXrRzZm`, item-type parsing of an input beginning
with that character fails with a parse error (in both parsers); no unknown
character is mapped to a default ItemType. -/
theorem c2_unknown_item_type_fails (c : Char) (rest : List Char)
    (h : c ∉ VALID_ITEM_TYPES) :
    item_type_charP ItemTypes.tryFrom (c :: rest) = .err ∧
    item_type_charP MonoItemTypes.tryFrom (c :: rest) = .err := by
  constructor <;> simp [item_type_charP, oneOfP, h]

/-- Witness for C2 at the concrete character `y`. -/
theorem c2_witness :
    ('y' : Char) ∉ VALID_ITEM_TYPES ∧
    item_type_charP ItemTypes.tryFrom ['y'] = .err ∧
    item_type_charP MonoItemTypes.tryFrom ['y'] = .err :=
  ⟨by decide, (c2_unknown_item_type_fails 'y' [] (by decide)).1,
    (c2_unknown_item_type_fails 'y' [] (by decide)).2⟩

/-- Claim C3 (evaluation at the failing inputs): for the in-alphabet but
unmapped characters `F` and `m`, the modular parser's item-type parsing
returns an error as the claim demands, but the monolithic parser hits the
`todo!` fallback of its `TryFrom<char>` and panics — an abort, not an
error result. -/
theorem c3_reserved_type_chars_eval :
    item_type_charP ItemTypes.tryFrom ('F' :: "  /x - - - - -".data) =
      .err ∧
    item_type_charP ItemTypes.tryFrom ('m' :: "  /x - - - - -".data) =
      .err ∧
    item_type_charP MonoItemTypes.tryFrom ('F' :: "  /x - - - - -".data) =
      .panic ∧
    item_type_charP MonoItemTypes.tryFrom ('m' :: "  /x - - - - -".data) =
      .panic ∧
    mono_parse_line "F  /x - - - - -".data = .panic ∧
    parse_line "F  /x - - - - -".data = .err := by
  decide

/-- Counterexample to claim C4: the mixed token `123abc` is parsed as
`ID(123)` with `abc` left unconsumed, not as `Name("123abc")`. -/
theorem c4_counterexample :
    userP "123abc".data = .ok "abc".data (some (.ID 123)) ∧
    userP "123abc".data ≠ .ok [] (some (.Name "123abc".data)) := by
  decide

/-- Claim C4 as amended: the placeholder `-` yields None; a token of
decimal digits (up to the next non-digit, value within u32) yields
`Some(ID(n))`; a token starting with a non-digit, non-`-` byte yields
`Some(Name(t))` with `t` the entire non-whitespace token; but a mixed
token such as `123abc` yields `ID(123)` with the non-digit tail left
unconsumed — not a `Name`. The same holds for group. -/
theorem c4_user_group_amended :
    (∀ rest : List Char, userP ('-' :: rest) = .ok rest none ∧
      groupP ('-' :: rest) = .ok rest none)
  ∧ (∀ ds rest : List Char, ds ≠ [] → ds.all Char.isDigit = true →
      headNotP Char.isDigit rest = true → natOfDigits ds ≤ U32_MAX →
      userP (ds ++ rest) = .ok rest (some (.ID (natOfDigits ds))) ∧
      groupP (ds ++ rest) = .ok rest (some (.ID (natOfDigits ds))))
  ∧ (∀ (nm rest : List Char) (c : Char), nm.head? = some c →
      c.isDigit = false → c ≠ '-' →
      nm.all (fun x => !isRustWhitespace x) = true →
      headNotP (fun x => !isRustWhitespace x) rest = true →
      userP (nm ++ rest) = .ok rest (some (.Name nm)) ∧
      groupP (nm ++ rest) = .ok rest (some (.Name nm)))
  ∧ userP "123abc".data = .ok "abc".data (some (.ID 123)) := by
  refine ⟨?_, ?_, ?_, by decide⟩
  · intro rest
    constructor <;> simp [userP, groupP, empty_placeholderP, charP]
  · intro ds rest h0 h1 h2 hv
    obtain ⟨d, ds', rfl⟩ : ∃ d t, ds = d :: t := by
      cases ds with
      | nil => exact absurd rfl h0
      | cons d t => exact ⟨d, t, rfl⟩
    have hd : d.isDigit = true := by
      simp only [List.all_cons, Bool.and_eq_true] at h1
      exact h1.1
    have hdm : d ≠ '-' := by
      intro e
      subst e
      simp at hd
    have hdig : digit1 (d :: (ds' ++ rest)) = .ok rest (d :: ds') := by
      simpa using digit1_append (d :: ds') rest h0 h1 h2
    constructor <;>
      simp [userP, groupP, empty_placeholderP, charP, hdm,
        user_or_group_idP, hdig, btoiU32, hv]
  · intro nm rest c hc hcd hcm hall hrest
    obtain ⟨nm', rfl⟩ : ∃ t, nm = c :: t := by
      cases nm with
      | nil => simp at hc
      | cons a t =>
        simp only [List.head?_cons, Option.some.injEq] at hc
        exact ⟨t, by rw [hc]⟩
    have hnd : headNotP Char.isDigit (c :: (nm' ++ rest)) = true := by
      simp [headNotP, hcd]
    have htt : takeTill isRustWhitespace (c :: (nm' ++ rest)) =
        .ok rest (c :: nm') := by
      simpa using takeTill_append (c :: nm') rest hall hrest
    constructor <;>
      simp [userP, groupP, empty_placeholderP, charP, hcm,
        user_or_group_idP, digit1_none _ hnd, user_or_group_nameP, htt]

/-- Witness for C4 at concrete tokens: `42` before a space parses as
`ID(42)` and `root` before a space parses as `Name("root")`. -/
theorem c4_witness :
    userP ("42".data ++ " x".data) =
      .ok " x".data (some (.ID (natOfDigits "42".data))) ∧
    groupP ("root".data ++ " x".data) =
      .ok " x".data (some (.Name "root".data)) :=
  ⟨(c4_user_group_amended.2.1 "42".data " x".data (by decide) (by decide)
      (by decide) (by decide)).1,
    (c4_user_group_amended.2.2.1 "root".data " x".data 'r' (by decide)
      (by decide) (by decide) (by decide) (by decide)).2⟩

/-- Claim C5 (evaluation at the failing input): a user or group digit
token above the u32 range makes the parser panic via
`btoi(..).unwrap()` — an abort, not the MalformedNumericId error result
the claim requires; the panic propagates out of the whole line parse. -/
theorem c5_numeric_id_overflow_panics :
    userP "4294967296".data = .panic ∧
    groupP "4294967296".data = .panic ∧
    parse_line "f /a - 4294967296 - - -".data = .panic := by
  decide

/-- Counterexample to claim C6: the age token `5x`, whose unit suffix is
unrecognized, is not rejected — the unit-sequence alternative succeeds
with a zero duration, leaving `5x` unconsumed; and a digit run above the
u64 range makes age parsing panic instead of returning an error. -/
theorem c6_counterexample :
    ageP "5x".data = .ok "5x".data (some ⟨0, false⟩) ∧
    ageP "5x".data ≠ .err ∧
    ageP "18446744073709551616w".data = .panic := by
  decide

/-- Claim C6 as amended: on an unrecognized unit suffix such as `5x` the
age parser itself succeeds with a zero duration, consuming nothing, and
the failure only surfaces as a parse error at the following separator of
the full line; numeric overflow of a component's digit run causes a
panic (in both age alternatives), not a MalformedDuration error. -/
theorem c6_age_malformed_amended :
    ageP "5x".data = .ok "5x".data (some ⟨0, false⟩) ∧
    parse_line "d /t - - - 5x -".data = .err ∧
    ageP "18446744073709551616w".data = .panic ∧
    age_without_unitP "18446744073709551616 ".data = .panic := by
  decide

/-- Claim C7: the age parser's concrete values — `-` gives None, `5s`
gives 5 000 000 µs, `1m` gives 60 000 000 µs, `1m50s` gives the component
sum 110 000 000 µs, and `60 ` (bare integer before a separator) gives
60 000 000 µs through the unitless alternative, which runs first and does
not consume the trailing separator (the unit-sequence alternative would
instead have produced 0 consuming nothing). -/
theorem c7_age_values :
    ageP "-".data = .ok [] none ∧
    ageP "5s".data = .ok [] (some ⟨5000000, false⟩) ∧
    ageP "1m".data = .ok [] (some ⟨60000000, false⟩) ∧
    ageP "1m50s".data = .ok [] (some ⟨110000000, false⟩) ∧
    ageP "60 ".data = .ok [' '] (some ⟨60000000, false⟩) ∧
    age_without_unitP "60 ".data = .ok [' '] 60000000 ∧
    age_with_unitP "60 ".data = .ok "60 ".data 0 := by
  decide

/-- Counterexample to claim C8: the placeholder followed by a trailing
newline is not recognized as a placeholder — `argument("-\n")` yields the
bytes `-\n` verbatim, not None. -/
theorem c8_counterexample :
    argumentP ['-', '\n'] = .ok [] (some ['-', '\n']) ∧
    argumentP ['-', '\n'] ≠ .ok [] none := by
  decide

/-- Claim C8 as amended: `argument("-")` and `argument("")` yield None,
and every other remainder — embedded whitespace and newlines included —
is returned verbatim; in particular a placeholder with a trailing newline
is such an "other remainder" and yields `Some("-\n")`, so the caller must
strip the newline beforehand. -/
theorem c8_argument_amended :
    argumentP "-".data = .ok [] none ∧
    argumentP [] = .ok [] none ∧
    argumentP ['-', '\n'] = .ok [] (some ['-', '\n']) ∧
    ∀ input : List Char, input ≠ ['-'] → input ≠ [] →
      argumentP input = .ok [] (some input) := by
  refine ⟨by decide, by decide, by decide, ?_⟩
  intro input h1 h2
  cases input with
  | nil => exact absurd rfl h2
  | cons c t =>
    by_cases hc : c = '-'
    · subst hc
      cases t with
      | nil => exact absurd rfl h1
      | cons b u =>
        simp [argumentP, allConsuming, altP, tagP, List.isPrefixOf]
    · simp [argumentP, allConsuming, altP, tagP, List.isPrefixOf,
        Ne.symm hc]

/-- Witness for C8 at a concrete remainder with embedded whitespace and a
newline. -/
theorem c8_witness :
    argumentP "abc d\ne".data = .ok [] (some "abc d\ne".data) :=
  c8_argument_amended.2.2.2 "abc d\ne".data (by decide) (by decide)

/-- Counterexample to claim C9: the lone component `5ms` is not consumed
by the millisecond matcher — the minutes matcher takes `5m` first,
yielding 300 000 000 µs with `s` unconsumed, not 5 000 µs. -/
theorem c9_counterexample :
    age_with_unitP "5ms".data = .ok ['s'] 300000000 ∧
    age_with_unitP "5ms".data ≠ .ok [] 5000 := by
  decide

/-- Claim C9 as amended: in isolation both the millisecond matcher and the
microsecond matcher do accept the suffix `ms` after a digit run (yielding
n*1000 µs and n µs respectively); but inside `age_with_unit` a lone
component `n ms` is captured by the minutes matcher, whose `m` tag matches
the first byte of `ms`, yielding n*60 000 000 µs with `s` left unconsumed —
so through the `ms` spelling as a lone component both n µs and n*1000 µs
are unreachable. -/
theorem c9_ms_amended (ds : List Char) (h0 : ds ≠ [])
    (h1 : ds.all Char.isDigit = true)
    (hv : natOfDigits ds ≤ U64_MAX) :
    milli_secondsP (ds ++ "ms".data) =
        .ok [] (u64Mul (natOfDigits ds) USEC_PER_MSEC) ∧
    micro_secondsP (ds ++ "ms".data) = .ok [] (natOfDigits ds) ∧
    age_with_unitP (ds ++ "ms".data) =
        .ok ['s'] (u64Mul (natOfDigits ds) USEC_PER_MIN) := by
  have h2 : headNotP Char.isDigit "ms".data = true := by decide
  have hlt : natOfDigits ds < U64_MOD :=
    lt_of_le_of_lt hv (by norm_num [U64_MAX, U64_MOD])
  refine ⟨?_, ?_, ?_⟩
  · exact time_unitP_match _ _ ds "ms".data [] "ms".data h0 h1 h2
      (by decide) hv
  · have h := time_unitP_match
      (altP (tagP "ms".data) (tagP "microseconds".data)) 1 ds "ms".data []
      "ms".data h0 h1 h2 (by decide) hv
    have e : u64Mul (natOfDigits ds) 1 = natOfDigits ds := by
      simp [u64Mul, Nat.mod_eq_of_lt hlt]
    rw [e] at h
    exact h
  · have hw : weeksP (ds ++ "ms".data) = .ok (ds ++ "ms".data) 0 :=
      time_unitP_tag_fail _ _ ds _ h0 h1 h2 (by decide)
    have hdy : daysP (ds ++ "ms".data) = .ok (ds ++ "ms".data) 0 :=
      time_unitP_tag_fail _ _ ds _ h0 h1 h2 (by decide)
    have hh : hoursP (ds ++ "ms".data) = .ok (ds ++ "ms".data) 0 :=
      time_unitP_tag_fail _ _ ds _ h0 h1 h2 (by decide)
    have hmin : minutesP (ds ++ "ms".data) =
        .ok ['s'] (u64Mul (natOfDigits ds) USEC_PER_MIN) :=
      time_unitP_match _ _ ds "ms".data ['s'] ['m'] h0 h1 h2 (by decide) hv
    have hs : secondsP ['s'] = .ok ['s'] 0 := by decide
    have hms2 : milli_secondsP ['s'] = .ok ['s'] 0 := by decide
    have hus : micro_secondsP ['s'] = .ok ['s'] 0 := by decide
    have hmod : u64Mul (natOfDigits ds) USEC_PER_MIN < U64_MOD :=
      Nat.mod_lt _ (by norm_num [U64_MOD])
    simp [age_with_unitP, hw, hdy, hh, hmin, hs, hms2, hus,
      Nat.mod_eq_of_lt hmod]

/-- Witness for C9 at the concrete digit run `5`. -/
theorem c9_witness :
    age_with_unitP ("5".data ++ "ms".data) =
      .ok ['s'] (u64Mul (natOfDigits "5".data) USEC_PER_MIN) :=
  (c9_ms_amended "5".data (by decide) (by decide) (by decide)).2.2

/-- Claim C10: for every input line whose type character is `f`, `d` or
`z`, the monolithic parser (src/src/parser.rs) and the modular parser
(src/src/parser/mod.rs) either both fail in the same way or both succeed
with field-by-field equal Actions under the obvious mapping of ItemTypes
variants. -/
theorem c10_parsers_agree (c : Char) (rest : List Char)
    (hc : c = 'f' ∨ c = 'd' ∨ c = 'z') :
    resAgree (mono_parse_line (c :: rest)) (parse_line (c :: rest)) := by
  rcases hc with rfl | rfl | rfl
  · exact parsersAgreeAux .CREATE_FILE .CREATE_FILE trivial 'f' rest rfl
      rfl (by decide)
  · exact parsersAgreeAux .CREATE_DIRECTORY .CREATE_DIRECTORY trivial 'd'
      rest rfl rfl (by decide)
  · exact parsersAgreeAux .RELABEL_PATH .RELABEL_PATH trivial 'z' rest rfl
      rfl (by decide)

/-- Witness for C10 at a concrete `f` line. -/
theorem c10_witness :
    resAgree (mono_parse_line ('f' :: " /a - - - - -".data))
      (parse_line ('f' :: " /a - - - - -".data)) :=
  c10_parsers_agree 'f' " /a - - - - -".data (Or.inl rfl)

end Tmpfiles
